import Mathlib

/-!
Shallow embedding of `src/server.js` (rdilipk1/linkedin-analyzer-backend).

The source file holds three near-duplicate revisions of one Express server.
We embed the route handlers as pure Lean functions over explicit state:

* the MySQL table `linkedin_auth` becomes an association list `Table`
  (rows of `user_id`, `access_token`, `expires_at`); the SQL statement
  `INSERT ... ON DUPLICATE KEY UPDATE` becomes `upsert`, the
  `SELECT ... WHERE user_id = ?` lookups become `lookup` / `countKey`;
* outcomes of outbound axios calls and of `dbPool.execute` are passed in as
  explicit environment values (`ExchangeOutcome`, `WriteOutcome`, ...);
* `Math.random()` draws are passed in as abstract seeds, with
  `Math.floor(Math.random()*n)` modelled as `seed % n`;
* JavaScript falsy-or (`x || d`, applied to strings that may be
  `undefined`) becomes `jsOr : Option String → String → String`;
* `new Date(ms).toISOString().split('T')[0]` becomes `isoDateOfMillis`,
  via the standard civil-from-days calendar algorithm.
-/

namespace LinkedinBackend

/-- Configuration read from `process.env` by the server: `BACKEND_URL`,
`FRONTEND_URL`, `LINKEDIN_CLIENT_ID`, `LINKEDIN_CLIENT_SECRET`. -/
structure Config where
  backendUrl : String
  frontendUrl : String
  clientId : String
  clientSecret : String
deriving DecidableEq, Repr

/-- One row of the `linkedin_auth` table apart from its key: the
`access_token` and `expires_at` columns. `expiresAt` is an absolute
timestamp in seconds. -/
structure TokenRecord where
  accessToken : String
  expiresAt : Nat
deriving DecidableEq, Repr

/-- The `linkedin_auth` table: rows keyed by `user_id`. -/
abbrev Table := List (String × TokenRecord)

/-- Number of rows of the table whose `user_id` equals `uid` (the row count
a `SELECT ... WHERE user_id = ?` would return). -/
def countKey : Table → String → Nat
  | [], _ => 0
  | r :: rest, uid => (if r.1 = uid then 1 else 0) + countKey rest uid

/-- Whether some row has key `uid`. -/
def hasKey : Table → String → Bool
  | [], _ => false
  | r :: rest, uid => r.1 = uid || hasKey rest uid

/-- Point lookup by key: the record of the first row whose `user_id` is
`uid` (what `SELECT access_token FROM linkedin_auth WHERE user_id = ?`
reads). -/
def lookup : Table → String → Option TokenRecord
  | [], _ => none
  | r :: rest, uid => if r.1 = uid then some r.2 else lookup rest uid

/-- Replace in place the record of every row keyed `uid` (the
`ON DUPLICATE KEY UPDATE access_token = ?, expires_at = ?` arm). -/
def replaceKey : Table → String → TokenRecord → Table
  | [], _, _ => []
  | r :: rest, uid, rec =>
      (if r.1 = uid then (uid, rec) else r) :: replaceKey rest uid rec

/-- The single atomic write the server issues:
`INSERT INTO linkedin_auth (user_id, access_token, expires_at) VALUES (?, ?, ?)
ON DUPLICATE KEY UPDATE access_token = ?, expires_at = ?` — update in place
if the key already exists, otherwise insert one new row. -/
def upsert (tbl : Table) (uid : String) (rec : TokenRecord) : Table :=
  if hasKey tbl uid then replaceKey tbl uid rec else tbl ++ [(uid, rec)]

/-- The constant user id hardcoded at every store touch point:
`const userId = 'default_user'` in the callback, and the literal
`'default_user'` in the two `SELECT` queries. -/
def defaultUser : String := "default_user"

/-! ### The token-exchange request (`axios.post` in the OAuth callback) -/

/-- The outbound POST the callback sends to
`https://www.linkedin.com/oauth/v2/accessToken`. The axios call passes
`null` as the request data (`jsonBody := none`), the five OAuth fields in
`params` (axios URL-encodes these into the query string), and a
`Content-Type` header. -/
structure TokenRequest where
  url : String
  jsonBody : Option String
  params : List (String × String)
  contentType : String
deriving DecidableEq, Repr

/-- Content-Type header string used by the first and second revisions of
the callback: `'application/x-form-urlencoded'` (note the missing `www`). -/
def ctypeV1 : String := "application/x-form-urlencoded"

/-- Content-Type header string used by the third revision of the callback:
`'application/x-www-form-urlencoded'`. -/
def ctypeV3 : String := "application/x-www-form-urlencoded"

/-- The redirect URI built by ROUTE 1 (`/auth/linkedin`):
`const redirectUri = BACKEND_URL + '/auth/linkedin/callback'`. -/
def beginAuthRedirectUri (cfg : Config) : String :=
  cfg.backendUrl ++ "/auth/linkedin/callback"

/-- The token-exchange request the callback builds, for a given
Content-Type revision `ct`: grant type, code, redirect URI (the same
expression as in ROUTE 1), and the client credentials, sent as axios
`params` with a `null` body. -/
def mkTokenRequest (ct : String) (cfg : Config) (code : String) : TokenRequest :=
  { url := "https://www.linkedin.com/oauth/v2/accessToken"
    jsonBody := none
    params :=
      [("grant_type", "authorization_code"),
       ("code", code),
       ("redirect_uri", cfg.backendUrl ++ "/auth/linkedin/callback"),
       ("client_id", cfg.clientId),
       ("client_secret", cfg.clientSecret)]
    contentType := ct }

/-! ### The OAuth callback handler (`/auth/linkedin/callback`) -/

/-- Outcome of the token-exchange POST: success yields
`{ access_token, expires_in }` from `tokenResponse.data`; failure covers a
network error, a non-2xx response or a malformed body, carrying the
diagnostic the catch block would log. -/
inductive ExchangeOutcome where
  | success (accessToken : String) (expiresIn : Nat)
  | failure (diagnostic : String)
deriving DecidableEq, Repr

/-- Outcome of `dbPool.execute` for the upsert: it resolves, or throws with
a store-side error message. -/
inductive WriteOutcome where
  | ok
  | storeError (msg : String)
deriving DecidableEq, Repr

/-- Environment of one callback invocation: what the provider and the store
would do, plus the current time in seconds (`new Date()`). -/
structure CallbackEnv where
  exchange : ExchangeOutcome
  write : WriteOutcome
  now : Nat
deriving DecidableEq, Repr

/-- Response the callback sends to the end user: a redirect
(`res.redirect(...)`, possibly after `res.status(...)`), or a raw error
page (`res.status(500).send(...)` in the second revision's pool guard). -/
inductive CallbackResponse where
  | redirect (location : String)
  | rawPage (status : Nat) (body : String)
deriving DecidableEq, Repr

/-- Whether a callback response is a redirect. -/
def CallbackResponse.isRedirect : CallbackResponse → Bool
  | .redirect _ => true
  | .rawPage _ _ => false

/-- Result of one callback invocation: the HTTP response, the table
afterwards, and the outbound token-exchange calls issued. -/
structure CallbackResult where
  response : CallbackResponse
  table : Table
  exchangeCalls : List TokenRequest
deriving DecidableEq, Repr

/-- JavaScript truth of `!code` for `const { code } = req.query`: `code` is
falsy when the query parameter is absent (`undefined`) or the empty
string. -/
def codeMissing : Option String → Bool
  | none => true
  | some s => s = ""

/-- ROUTE 2, `/auth/linkedin/callback` (first and third revisions; the
second adds a pool guard, see `completeAuthorizationV2`). If `!code`,
redirect to `FRONTEND_URL + '/settings?error=true'` with no store write and
no outbound call. Otherwise POST the token exchange; on success destructure
`access_token` and `expires_in`, set `expires_at` to now plus `expires_in`
seconds, upsert the row for `'default_user'`, and redirect to
`'/settings?connected=true'`; any thrown error (exchange or store write) is
caught and answered with the `'/settings?error=true'` redirect. -/
def completeAuthorization (ct : String) (cfg : Config) (env : CallbackEnv)
    (tbl : Table) (code : Option String) : CallbackResult :=
  if codeMissing code then
    { response := .redirect (cfg.frontendUrl ++ "/settings?error=true")
      table := tbl
      exchangeCalls := [] }
  else
    let req := mkTokenRequest ct cfg (code.getD "")
    match env.exchange with
    | .failure _ =>
        { response := .redirect (cfg.frontendUrl ++ "/settings?error=true")
          table := tbl
          exchangeCalls := [req] }
    | .success tok expiresIn =>
        match env.write with
        | .storeError _ =>
            { response := .redirect (cfg.frontendUrl ++ "/settings?error=true")
              table := tbl
              exchangeCalls := [req] }
        | .ok =>
            { response := .redirect (cfg.frontendUrl ++ "/settings?connected=true")
              table := upsert tbl defaultUser ⟨tok, env.now + expiresIn⟩
              exchangeCalls := [req] }

/-- ROUTE 2 in the second revision: it first checks `if (!dbPool)` and, when
the pool was never created, answers
`res.status(500).send("Server error: Database connection failed.")` — a raw
error page, before even reading `code`; otherwise it behaves as the shared
handler body. -/
def completeAuthorizationV2 (ct : String) (cfg : Config) (poolAvailable : Bool)
    (env : CallbackEnv) (tbl : Table) (code : Option String) : CallbackResult :=
  if !poolAvailable then
    { response := .rawPage 500 "Server error: Database connection failed."
      table := tbl
      exchangeCalls := [] }
  else
    completeAuthorization ct cfg env tbl code

/-! ### Basic store lemmas -/

theorem countKey_append (a b : Table) (uid : String) :
    countKey (a ++ b) uid = countKey a uid + countKey b uid := by
  induction a with
  | nil => simp [countKey]
  | cons r rest ih => simp [countKey, ih]; omega

theorem countKey_replaceKey (tbl : Table) (uid : String) (rec : TokenRecord) :
    countKey (replaceKey tbl uid rec) uid = countKey tbl uid := by
  induction tbl with
  | nil => rfl
  | cons r rest ih =>
      by_cases h : r.1 = uid <;> simp [replaceKey, countKey, h, ih]

theorem hasKey_iff_countKey_pos (tbl : Table) (uid : String) :
    hasKey tbl uid = true ↔ 0 < countKey tbl uid := by
  induction tbl with
  | nil => simp [hasKey, countKey]
  | cons r rest ih =>
      by_cases h : r.1 = uid <;> simp [hasKey, countKey, h, ih]

theorem lookup_append_of_not_has (a b : Table) (uid : String)
    (h : hasKey a uid = false) : lookup (a ++ b) uid = lookup b uid := by
  induction a with
  | nil => rfl
  | cons r rest ih =>
      simp [hasKey] at h
      simp [lookup, h.1, ih h.2]

theorem lookup_replaceKey_of_has (tbl : Table) (uid : String) (rec : TokenRecord)
    (h : hasKey tbl uid = true) :
    lookup (replaceKey tbl uid rec) uid = some rec := by
  induction tbl with
  | nil => simp [hasKey] at h
  | cons r rest ih =>
      by_cases hr : r.1 = uid
      · simp [replaceKey, lookup, hr]
      · simp [hasKey, hr] at h
        simp [replaceKey, lookup, hr, ih h]

theorem lookup_upsert (tbl : Table) (uid : String) (rec : TokenRecord) :
    lookup (upsert tbl uid rec) uid = some rec := by
  unfold upsert
  by_cases h : hasKey tbl uid
  · simp [h, lookup_replaceKey_of_has tbl uid rec h]
  · simp at h
    simp [h, lookup_append_of_not_has tbl _ uid h, lookup]

theorem countKey_upsert (tbl : Table) (uid : String) (rec : TokenRecord)
    (h : countKey tbl uid ≤ 1) : countKey (upsert tbl uid rec) uid = 1 := by
  unfold upsert
  by_cases hk : hasKey tbl uid
  · have := (hasKey_iff_countKey_pos tbl uid).mp hk
    simp [hk, countKey_replaceKey]
    omega
  · simp at hk
    have h0 : countKey tbl uid = 0 := by
      by_contra hne
      have : 0 < countKey tbl uid := Nat.pos_of_ne_zero hne
      exact absurd ((hasKey_iff_countKey_pos tbl uid).mpr this) (by simp [hk])
    simp [hk, countKey_append, h0, countKey]

/-! ### The status route (`/api/status`) -/

/-- Response of `/api/status`: the HTTP status code, the `isConnected`
field, and the optional `message` field of the JSON body. -/
structure StatusResponse where
  status : Nat
  isConnected : Bool
  message : Option String
deriving DecidableEq, Repr

/-- Route `/api/status` (first revision, and second/third past their guards):
`SELECT 1 FROM linkedin_auth WHERE user_id = 'default_user'`, then
`isConnected` is `rows.length > 0`; if the query throws (`storeOk = false`)
the catch answers `res.status(500).json({ isConnected: false, message:
'Could not check status.' })`. -/
def apiStatus (storeOk : Bool) (tbl : Table) : StatusResponse :=
  if storeOk then
    if 0 < countKey tbl defaultUser then
      { status := 200, isConnected := true, message := none }
    else
      { status := 200, isConnected := false, message := none }
  else
    { status := 500, isConnected := false, message := some "Could not check status." }

/-- Route `/api/status` in the second revision: it first checks `if (!dbPool)`
and, when the pool was never created, answers `res.json({ isConnected:
false })` — HTTP 200 with no message; otherwise it proceeds as the shared
handler. -/
def apiStatusV2 (poolAvailable storeOk : Bool) (tbl : Table) : StatusResponse :=
  if !poolAvailable then
    { status := 200, isConnected := false, message := none }
  else
    apiStatus storeOk tbl

/-- Rewrite every row's `expires_at` through `f`, leaving keys and access
tokens unchanged. Used to state that the status answer ignores expiry. -/
def mapExpiry (f : Nat → Nat) (tbl : Table) : Table :=
  tbl.map (fun r => (r.1, ⟨r.2.accessToken, f r.2.expiresAt⟩))

theorem countKey_mapExpiry (f : Nat → Nat) (tbl : Table) (uid : String) :
    countKey (mapExpiry f tbl) uid = countKey tbl uid := by
  induction tbl with
  | nil => rfl
  | cons r rest ih => simp [mapExpiry, countKey] at ih ⊢; omega

/-! ### The posts route (`/api/posts`) -/

/-- Deepest level of the revision-1 provider post's media chain:
`source.downloadUrl` (the URL itself may be absent). -/
structure MediaSource where
  downloadUrl : Option String
deriving DecidableEq, Repr

/-- Middle level of the media chain: `media.source`. -/
structure Media where
  source : Option MediaSource
deriving DecidableEq, Repr

/-- Top level of the media chain: `content.media`. -/
structure PostContent where
  media : Option Media
deriving DecidableEq, Repr

/-- One element of `apiResponse.data.elements` from
`https://api.linkedin.com/rest/posts` as the revision-1 normalizer reads
it: `id`, optional `commentary`, optional nested `content.media.source`,
and `createdAt` in epoch milliseconds. -/
structure ProviderPost where
  id : String
  commentary : Option String
  content : Option PostContent
  createdAt : Nat
deriving DecidableEq, Repr

/-- The optional chain `post.content?.media?.source?.downloadUrl`. -/
def mediaDownloadUrl (p : ProviderPost) : Option String :=
  ((p.content.bind PostContent.media).bind Media.source).bind MediaSource.downloadUrl

/-- JavaScript `x || d` where `x` is a possibly-`undefined` string:
the default wins when `x` is `undefined` or the empty string. -/
def jsOr (o : Option String) (d : String) : String :=
  match o with
  | none => d
  | some s => if s = "" then d else s

/-- Fixed sub-record of reaction counts in the normalized output. -/
structure Reactions where
  likes : Nat
  celebrations : Nat
  loves : Nat
  insights : Nat
  funny : Nat
deriving DecidableEq, Repr

/-- The stable output shape built by the normalizers. Every field is total:
the JavaScript object literal always sets all eight keys. -/
structure NormalizedPost where
  id : String
  content : String
  imageUrl : String
  impressions : Nat
  reactions : Reactions
  comments : Nat
  shares : Nat
  date : String
deriving DecidableEq, Repr

/-- Two-digit zero padding for month and day. -/
def pad2 (n : Nat) : String :=
  if n < 10 then "0" ++ toString n else toString n

/-- Civil date (year, month, day) of a day count since 1970-01-01,
by the standard era-based Gregorian conversion. -/
def civilFromDays (days : Nat) : Nat × Nat × Nat :=
  let z := days + 719468
  let era := z / 146097
  let doe := z % 146097
  let yoe := (doe - doe / 1460 + doe / 36524 - doe / 146096) / 365
  let y := yoe + era * 400
  let doy := doe - (365 * yoe + yoe / 4 - yoe / 100)
  let mp := (5 * doy + 2) / 153
  let d := doy - (153 * mp + 2) / 5 + 1
  let m := if mp < 10 then mp + 3 else mp - 9
  (if m ≤ 2 then y + 1 else y, m, d)

/-- Evaluation of `new Date(ms).toISOString().split('T')[0]`: the
`YYYY-MM-DD` date part of an epoch-milliseconds timestamp. -/
def isoDateOfMillis (ms : Nat) : String :=
  let c := civilFromDays (ms / 86400000)
  toString c.1 ++ "-" ++ pad2 c.2.1 ++ "-" ++ pad2 c.2.2

/-- The placeholder image URL
`'https://picsum.photos/800/400?random=' + Math.floor(Math.random()*1000)`,
with the random draw modelled by `seed % 1000`. -/
def placeholderUrl (seed : Nat) : String :=
  "https://picsum.photos/800/400?random=" ++ toString (seed % 1000)

/-- The revision-1 normalizer (`apiResponse.data.elements.map(...)`):
`content` is `post.commentary || ''`, `imageUrl` is the media download URL
or the random placeholder, all metrics are literal zeros, and `date` is the
ISO date part of `createdAt`. -/
def formatPost (seed : Nat) (p : ProviderPost) : NormalizedPost :=
  { id := p.id
    content := jsOr p.commentary ""
    imageUrl := jsOr (mediaDownloadUrl p) (placeholderUrl seed)
    impressions := 0
    reactions := ⟨0, 0, 0, 0, 0⟩
    comments := 0
    shares := 0
    date := isoDateOfMillis p.createdAt }

/-- Outcome of one outbound bearer-authenticated GET in the posts flow:
a 2xx payload, an HTTP error response with its status and body (what axios
exposes as `error.response`), or a network error with no response. -/
inductive ApiOutcome (α : Type) where
  | ok (payload : α)
  | httpError (status : Nat) (body : String)
  | network (msg : String)
deriving DecidableEq, Repr

/-- Environment of one `/api/posts` invocation: the outcome of the identity
call (`GET /v2/me`, payload `profileResponse.data.id`) and of the listing
call (payload `data.elements`). -/
structure PostsEnv where
  profile : ApiOutcome String
  listing : ApiOutcome (List ProviderPost)
deriving Repr

/-- Response of `/api/posts`: the normalized array, or a JSON error with an
HTTP status and a `message`. -/
inductive PostsResponse where
  | posts (items : List NormalizedPost)
  | jsonErr (status : Nat) (message : String)
deriving DecidableEq, Repr

/-- HTTP error status of a posts response, if it is an error. -/
def PostsResponse.errStatus : PostsResponse → Option Nat
  | .posts _ => none
  | .jsonErr s _ => some s

/-- Result of one `/api/posts` invocation: the response, the URLs of the
outbound provider calls issued in order, and the bearer token used for
them (if any). -/
structure PostsResult where
  response : PostsResponse
  outboundCalls : List String
  tokenUsed : Option String
deriving DecidableEq, Repr

/-- The 401 body of the unauthenticated branch. -/
def notAuthenticatedMsg : String := "Not authenticated. Please connect to LinkedIn."

/-- The 403 body of the permission branch (first revision). -/
def permissionDeniedMsg : String :=
  "Authentication successful, but you do not have permission to access post data. Please ensure your LinkedIn App has the \"Community Management API\" product approved."

/-- The generic 500 body of the catch-all branch (first revision). -/
def upstreamErrorMsg : String := "Failed to fetch posts from LinkedIn API."

/-- URL of the identity call. -/
def profileUrl : String := "https://api.linkedin.com/v2/me"

/-- URL of the revision-1 listing call, scoped by the person URN resolved
from the identity call. -/
def postsListingUrl (personId : String) : String :=
  "https://api.linkedin.com/rest/posts?author=urn:li:person:" ++ personId ++ "&q=author&count=15"

/-- Map each provider post through `formatPost`, drawing one fresh random
seed per post (`seeds i` is the draw for the i-th post). -/
def formatAll (seeds : Nat → Nat) : Nat → List ProviderPost → List NormalizedPost
  | _, [] => []
  | i, p :: ps => formatPost (seeds i) p :: formatAll seeds (i + 1) ps

/-- The shared catch block of `/api/posts`: a response-carrying 403 becomes
the distinct permission message, anything else the generic 500. -/
def postsCatch (status : Option Nat) : PostsResponse :=
  match status with
  | some s => if s = 403 then .jsonErr 403 permissionDeniedMsg else .jsonErr 500 upstreamErrorMsg
  | none => .jsonErr 500 upstreamErrorMsg

/-- ROUTE 3 of the first revision, `/api/posts`: look up
`access_token` for `'default_user'`; if no row, answer 401 with
`notAuthenticatedMsg` and make no outbound call. Otherwise GET the profile,
build the person URN, GET the listing, and map the elements through the
normalizer; a thrown axios error goes through the shared catch
(`error.response.status === 403` → the permission message, else the generic
500). -/
def apiPosts (tbl : Table) (env : PostsEnv) (seeds : Nat → Nat) : PostsResult :=
  match lookup tbl defaultUser with
  | none =>
      { response := .jsonErr 401 notAuthenticatedMsg
        outboundCalls := []
        tokenUsed := none }
  | some rec =>
      match env.profile with
      | .httpError s _ =>
          { response := postsCatch (some s)
            outboundCalls := [profileUrl]
            tokenUsed := some rec.accessToken }
      | .network _ =>
          { response := postsCatch none
            outboundCalls := [profileUrl]
            tokenUsed := some rec.accessToken }
      | .ok personId =>
          match env.listing with
          | .httpError s _ =>
              { response := postsCatch (some s)
                outboundCalls := [profileUrl, postsListingUrl personId]
                tokenUsed := some rec.accessToken }
          | .network _ =>
              { response := postsCatch none
                outboundCalls := [profileUrl, postsListingUrl personId]
                tokenUsed := some rec.accessToken }
          | .ok elements =>
              { response := .posts (formatAll seeds 0 elements)
                outboundCalls := [profileUrl, postsListingUrl personId]
                tokenUsed := some rec.accessToken }

/-! ### The revision-3 posts normalizer (`/v2/shares` endpoint) -/

/-- The `shareCommentary` object of a share, whose `text` the revision-3
normalizer reads. -/
structure ShareCommentary where
  text : Option String
deriving DecidableEq, Repr

/-- The `specificContent['com.linkedin.ugc.ShareContent']` object of a
share, with its optional `shareCommentary`. -/
structure ShareContent where
  shareCommentary : Option ShareCommentary
deriving DecidableEq, Repr

/-- One element of the `/v2/shares` listing as the revision-3 normalizer
reads it: `id`, the optional `specificContent['com.linkedin.ugc.ShareContent']`,
and `created.time` in epoch milliseconds. -/
structure SharePost where
  id : String
  shareContent : Option ShareContent
  createdTime : Nat
deriving DecidableEq, Repr

/-- The optional chain
`post.specificContent['com.linkedin.ugc.ShareContent']?.shareCommentary?.text`. -/
def shareCommentaryText (p : SharePost) : Option String :=
  (p.shareContent.bind ShareContent.shareCommentary).bind ShareCommentary.text

/-- The revision-3 normalizer (`postsResponse.data.elements.map(...)`).
Every metric is fabricated from a fresh `Math.random()` draw — the source
comments call it dummy data: `impressions` is `floor(random()*5000)+500`,
the reactions and the comment/share counts are smaller random ranges, and
`imageUrl` is always the random placeholder. `seeds k` is the k-th draw of
the object literal in evaluation order. -/
def formatPostV3 (seeds : Nat → Nat) (p : SharePost) : NormalizedPost :=
  { id := p.id
    content := jsOr (shareCommentaryText p) ""
    imageUrl := placeholderUrl (seeds 0)
    impressions := seeds 1 % 5000 + 500
    reactions :=
      { likes := seeds 2 % 100
        celebrations := seeds 3 % 20
        loves := seeds 4 % 15
        insights := seeds 5 % 25
        funny := seeds 6 % 5 }
    comments := seeds 7 % 50
    shares := seeds 8 % 10
    date := isoDateOfMillis p.createdTime }

/-! ### Sequences of callback invocations (for the upsert-replace law) -/

/-- One `CompleteAuthorization` invocation: the `code` query parameter it
received and the environment (provider and store behaviour) it ran in. -/
structure CallEvent where
  code : Option String
  env : CallbackEnv
deriving DecidableEq, Repr

/-- The token record a call persists, when it is a successful exchange:
the code was present, the exchange succeeded, and the store write went
through. -/
def successOf (e : CallEvent) : Option TokenRecord :=
  if codeMissing e.code then none
  else
    match e.env.exchange, e.env.write with
    | .success tok expiresIn, .ok => some ⟨tok, e.env.now + expiresIn⟩
    | _, _ => none

/-- Run a sequence of callback invocations left to right, threading the
table through. -/
def runCalls (ct : String) (cfg : Config) : Table → List CallEvent → Table
  | tbl, [] => tbl
  | tbl, e :: rest =>
      runCalls ct cfg (completeAuthorization ct cfg e.env tbl e.code).table rest

/-- The record of the most recent successful exchange of a sequence, if
any. -/
def lastSuccess : List CallEvent → Option TokenRecord
  | [] => none
  | e :: rest =>
      match lastSuccess rest with
      | some r => some r
      | none => successOf e

theorem callback_table_eq (ct : String) (cfg : Config) (env : CallbackEnv)
    (tbl : Table) (code : Option String) :
    (completeAuthorization ct cfg env tbl code).table =
      match successOf ⟨code, env⟩ with
      | none => tbl
      | some r => upsert tbl defaultUser r := by
  unfold completeAuthorization successOf
  by_cases h : codeMissing code
  · simp [h]
  · cases env.exchange <;> cases env.write <;> simp [h]

theorem runCalls_spec (ct : String) (cfg : Config) (events : List CallEvent)
    (tbl : Table) (h : countKey tbl defaultUser ≤ 1) :
    (match lastSuccess events with
     | some r =>
         countKey (runCalls ct cfg tbl events) defaultUser = 1 ∧
           lookup (runCalls ct cfg tbl events) defaultUser = some r
     | none => runCalls ct cfg tbl events = tbl) := by
  induction events generalizing tbl with
  | nil => simp [lastSuccess, runCalls]
  | cons e rest ih =>
      have hstep := callback_table_eq ct cfg e.env tbl e.code
      cases hsucc : successOf e with
      | none =>
          have htbl : (completeAuthorization ct cfg e.env tbl e.code).table = tbl := by
            rw [hstep]; simp [hsucc]
          have := ih tbl h
          cases hrest : lastSuccess rest with
          | none =>
              simp [hrest] at this
              simp [lastSuccess, runCalls, htbl, hrest, hsucc, this]
          | some r =>
              simp [hrest] at this
              simp [lastSuccess, runCalls, htbl, hrest, this]
      | some r0 =>
          have htbl : (completeAuthorization ct cfg e.env tbl e.code).table =
              upsert tbl defaultUser r0 := by
            rw [hstep]; simp [hsucc]
          have hcnt : countKey (upsert tbl defaultUser r0) defaultUser = 1 :=
            countKey_upsert tbl defaultUser r0 h
          have := ih (upsert tbl defaultUser r0) (le_of_eq hcnt)
          cases hrest : lastSuccess rest with
          | none =>
              simp [hrest] at this
              simp [lastSuccess, runCalls, htbl, hrest, hsucc, this, hcnt,
                lookup_upsert]
          | some r =>
              simp [hrest] at this
              simp [lastSuccess, runCalls, htbl, hrest, this]

/-! ### Further helper lemmas -/

theorem placeholderUrl_ne_empty (seed : Nat) : placeholderUrl seed ≠ "" := by
  intro h
  have hlen := congrArg String.length h
  rw [placeholderUrl, String.length_append] at hlen
  have h37 : ("https://picsum.photos/800/400?random=" : String).length = 37 := by decide
  rw [h37] at hlen
  simp at hlen

theorem jsOr_placeholder_ne_empty (o : Option String) (seed : Nat) :
    jsOr o (placeholderUrl seed) ≠ "" := by
  cases o with
  | none => exact placeholderUrl_ne_empty seed
  | some s =>
      unfold jsOr
      by_cases h : s = ""
      · simpa [h] using placeholderUrl_ne_empty seed
      · simp [h]

theorem postsCatch_errStatus_ne_401 (st : Option Nat) :
    (postsCatch st).errStatus ≠ some 401 := by
  cases st with
  | none => simp [postsCatch, PostsResponse.errStatus]
  | some s =>
      by_cases h : s = 403 <;> simp [postsCatch, PostsResponse.errStatus, h]

theorem countKey_upsert_pos (tbl : Table) (uid : String) (rec : TokenRecord) :
    0 < countKey (upsert tbl uid rec) uid := by
  unfold upsert
  by_cases h : hasKey tbl uid
  · simp [h, countKey_replaceKey]
    exact (hasKey_iff_countKey_pos tbl uid).mp h
  · simp [h, countKey_append, countKey]

/-! ### Concrete fixtures used by the witness theorems -/

/-- Concrete configuration for witnesses. -/
def cfgX : Config :=
  { backendUrl := "https://backend.example"
    frontendUrl := "https://frontend.example"
    clientId := "cid"
    clientSecret := "csecret" }

/-- Concrete environment where the exchange and the store write succeed. -/
def envOkX : CallbackEnv := ⟨.success "tok2" 120, .ok, 2000⟩

/-- Concrete environment where the exchange fails. -/
def envFailX : CallbackEnv := ⟨.failure "boom", .ok, 0⟩

/-- Concrete two-call sequence whose last successful exchange stores
`tok2` expiring at `2120`. -/
def eventsX : List CallEvent :=
  [⟨some "abc123", ⟨.success "tok1" 60, .ok, 1000⟩⟩, ⟨some "code2", envOkX⟩]

/-! ### The claims -/

/-- C1: for every sequence of CompleteAuthorization calls for the single
logical user, starting from a table respecting the at-most-one-row
invariant, if the sequence contains at least one successful exchange then
afterwards the store holds exactly one row for `'default_user'`, and its
access token and expiry are those of the most recent successful exchange:
each success performs one atomic upsert that replaces, never appends. -/
theorem c1_upsert_replace_law (ct : String) (cfg : Config)
    (events : List CallEvent) (tbl : Table) (r : TokenRecord)
    (hinv : countKey tbl defaultUser ≤ 1)
    (hlast : lastSuccess events = some r) :
    countKey (runCalls ct cfg tbl events) defaultUser = 1 ∧
      lookup (runCalls ct cfg tbl events) defaultUser = some r := by
  have h := runCalls_spec ct cfg events tbl hinv
  rw [hlast] at h
  exact h

/-- Witness for C1: running the concrete two-success sequence `eventsX`
from the empty table leaves exactly the record of the second exchange. -/
theorem c1_upsert_replace_law_witness :
    countKey ([] : Table) defaultUser ≤ 1 ∧
    lastSuccess eventsX = some ⟨"tok2", 2120⟩ ∧
    (countKey (runCalls ctypeV1 cfgX [] eventsX) defaultUser = 1 ∧
      lookup (runCalls ctypeV1 cfgX [] eventsX) defaultUser = some ⟨"tok2", 2120⟩) :=
  ⟨by decide, by decide,
    c1_upsert_replace_law ctypeV1 cfgX eventsX [] ⟨"tok2", 2120⟩ (by decide) (by decide)⟩

/-- C2: for every callback request whose `code` query parameter is absent
or empty, CompleteAuthorization leaves the table untouched, issues no
outbound token-exchange call, and responds with the redirect to the
configured failure landing page with the error indicator. -/
theorem c2_missing_code_no_write (ct : String) (cfg : Config)
    (env : CallbackEnv) (tbl : Table) (code : Option String)
    (h : codeMissing code = true) :
    completeAuthorization ct cfg env tbl code =
      { response := .redirect (cfg.frontendUrl ++ "/settings?error=true")
        table := tbl
        exchangeCalls := [] } := by
  unfold completeAuthorization
  simp [h]

/-- Witness for C2: a callback invocation with an absent `code`. -/
theorem c2_missing_code_no_write_witness :
    codeMissing none = true ∧
    completeAuthorization ctypeV1 cfgX envOkX [] none =
      { response := .redirect (cfgX.frontendUrl ++ "/settings?error=true")
        table := []
        exchangeCalls := [] } :=
  ⟨by decide, c2_missing_code_no_write ctypeV1 cfgX envOkX [] none (by decide)⟩

/-- C3 as stated is refuted by the second revision of `/api/status`: when
the store is unreachable because the pool was never created, the handler
answers plain `{ isConnected: false }` with HTTP 200 — byte-for-byte the
same response as for a legitimately absent record, so there is no error
signal distinguishing "cannot determine" from "never connected". -/
theorem c3_status_counterexample :
    apiStatusV2 false true ([] : Table) = apiStatusV2 true true ([] : Table) ∧
    apiStatusV2 false true ([] : Table) =
      { status := 200, isConnected := false, message := none } := by
  decide

/-- C3 amended: `isConnected` is true iff a row exists for
`'default_user'`, independent of every row's expiry; and when the lookup
query itself fails the handler answers HTTP 500 with `isConnected: false`
and a message — distinguishable from the response for a legitimately
absent record. (The second revision's never-created-pool guard path,
which answers a plain 200, is excluded: see the counterexample.) -/
theorem c3_status_amended (tbl tbl0 : Table) (f : Nat → Nat)
    (h0 : countKey tbl0 defaultUser = 0) :
    ((apiStatus true tbl).isConnected = true ↔ 0 < countKey tbl defaultUser) ∧
    (apiStatus true (mapExpiry f tbl)).isConnected = (apiStatus true tbl).isConnected ∧
    (apiStatus false tbl).status = 500 ∧
    (apiStatus false tbl).isConnected = false ∧
    apiStatus false tbl ≠ apiStatus true tbl0 := by
  refine ⟨?_, ?_, ?_, ?_, ?_⟩
  · unfold apiStatus
    by_cases h : 0 < countKey tbl defaultUser <;> simp [h]
  · unfold apiStatus
    simp [countKey_mapExpiry]
  · simp [apiStatus]
  · simp [apiStatus]
  · simp [apiStatus, h0]

/-- Witness for C3 amended: a one-row table versus the empty table. -/
theorem c3_status_amended_witness :
    countKey ([] : Table) defaultUser = 0 ∧
    (((apiStatus true [(defaultUser, ⟨"t", 7⟩)]).isConnected = true ↔
        0 < countKey [(defaultUser, ⟨"t", 7⟩)] defaultUser) ∧
      (apiStatus true (mapExpiry Nat.succ [(defaultUser, ⟨"t", 7⟩)])).isConnected =
        (apiStatus true [(defaultUser, ⟨"t", 7⟩)]).isConnected ∧
      (apiStatus false [(defaultUser, ⟨"t", 7⟩)]).status = 500 ∧
      (apiStatus false [(defaultUser, ⟨"t", 7⟩)]).isConnected = false ∧
      apiStatus false [(defaultUser, ⟨"t", 7⟩)] ≠ apiStatus true ([] : Table)) :=
  ⟨by decide, c3_status_amended [(defaultUser, ⟨"t", 7⟩)] [] Nat.succ (by decide)⟩

/-- C4: for every store state with no row for the single logical user,
FetchPosts answers the distinct 401 Unauthenticated error and issues zero
outbound provider calls; moreover no execution that does find a row ever
answers 401, so the error is distinct from all other failures. -/
theorem c4_unauthenticated_no_calls (tbl : Table) (env : PostsEnv)
    (seeds : Nat → Nat) (h : lookup tbl defaultUser = none) :
    (apiPosts tbl env seeds).response = .jsonErr 401 notAuthenticatedMsg ∧
    (apiPosts tbl env seeds).outboundCalls = [] ∧
    ∀ tbl2 env2 seeds2 rec, lookup tbl2 defaultUser = some rec →
      (apiPosts tbl2 env2 seeds2).response.errStatus ≠ some 401 := by
  refine ⟨?_, ?_, ?_⟩
  · unfold apiPosts
    rw [h]
  · unfold apiPosts
    rw [h]
  · intro tbl2 env2 seeds2 rec h2
    unfold apiPosts
    rw [h2]
    cases env2.profile with
    | httpError s b => exact postsCatch_errStatus_ne_401 (some s)
    | network m => exact postsCatch_errStatus_ne_401 none
    | ok pid =>
        cases env2.listing with
        | httpError s b => exact postsCatch_errStatus_ne_401 (some s)
        | network m => exact postsCatch_errStatus_ne_401 none
        | ok elements => simp [PostsResponse.errStatus]

/-- Witness for C4: the empty table. -/
theorem c4_unauthenticated_no_calls_witness :
    lookup ([] : Table) defaultUser = none ∧
    ((apiPosts [] ⟨.ok "pid", .ok []⟩ (fun _ => 0)).response =
        .jsonErr 401 notAuthenticatedMsg ∧
      (apiPosts [] ⟨.ok "pid", .ok []⟩ (fun _ => 0)).outboundCalls = [] ∧
      ∀ tbl2 env2 seeds2 rec, lookup tbl2 defaultUser = some rec →
        (apiPosts tbl2 env2 seeds2).response.errStatus ≠ some 401) :=
  ⟨rfl, c4_unauthenticated_no_calls [] ⟨.ok "pid", .ok []⟩ (fun _ => 0) rfl⟩

/-- C5: whenever the identity-lookup call or the post-listing call comes
back as an authorization-denied (HTTP 403) response, FetchPosts answers
the distinct 403 PermissionDenied error whose message names the missing
provider product ("Community Management API"), not the generic 500
UpstreamError. -/
theorem c5_permission_denied (tbl : Table) (env : PostsEnv) (seeds : Nat → Nat)
    (rec : TokenRecord) (bodyP bodyL : String)
    (hrec : lookup tbl defaultUser = some rec)
    (h : env.profile = .httpError 403 bodyP ∨
      (∃ pid, env.profile = .ok pid ∧ env.listing = .httpError 403 bodyL)) :
    (apiPosts tbl env seeds).response = .jsonErr 403 permissionDeniedMsg ∧
    permissionDeniedMsg ≠ upstreamErrorMsg ∧
    (∃ a b, permissionDeniedMsg = a ++ "Community Management API" ++ b) := by
  refine ⟨?_, by decide, ?_⟩
  · rcases h with hp | ⟨pid, hp, hl⟩
    · unfold apiPosts
      rw [hrec, hp]
      simp [postsCatch]
    · unfold apiPosts
      rw [hrec, hp, hl]
      simp [postsCatch]
  · refine ⟨"Authentication successful, but you do not have permission to access post data. Please ensure your LinkedIn App has the \"", "\" product approved.", ?_⟩
    decide

/-- Witness for C5: one-row table, identity call succeeds, listing call
comes back 403. -/
theorem c5_permission_denied_witness :
    lookup [(defaultUser, ⟨"t", 7⟩)] defaultUser = some ⟨"t", 7⟩ ∧
    ((apiPosts [(defaultUser, ⟨"t", 7⟩)] ⟨.ok "pid", .httpError 403 "denied"⟩
        (fun _ => 0)).response = .jsonErr 403 permissionDeniedMsg ∧
      permissionDeniedMsg ≠ upstreamErrorMsg ∧
      (∃ a b, permissionDeniedMsg = a ++ "Community Management API" ++ b)) :=
  ⟨by decide,
    c5_permission_denied [(defaultUser, ⟨"t", 7⟩)] ⟨.ok "pid", .httpError 403 "denied"⟩
      (fun _ => 0) ⟨"t", 7⟩ "" "denied" (by decide) (Or.inr ⟨"pid", rfl, rfl⟩)⟩

/-- C6: for every provider post the revision-1 normalizer handles, a
missing media reference yields the non-empty random placeholder URL as
`imageUrl`, absent commentary yields the empty string as `content`, and —
the output structure being total in every field — `imageUrl` is non-empty
for every input whatsoever. -/
theorem c6_normalized_fallbacks (seed : Nat) (p : ProviderPost)
    (hm : mediaDownloadUrl p = none) (hc : p.commentary = none) :
    (formatPost seed p).imageUrl = placeholderUrl seed ∧
    placeholderUrl seed ≠ "" ∧
    (formatPost seed p).content = "" ∧
    ∀ seed2 p2, (formatPost seed2 p2).imageUrl ≠ "" := by
  refine ⟨?_, placeholderUrl_ne_empty seed, ?_, ?_⟩
  · simp [formatPost, hm, jsOr]
  · simp [formatPost, hc, jsOr]
  · intro seed2 p2
    simpa [formatPost] using jsOr_placeholder_ne_empty (mediaDownloadUrl p2) seed2

/-- Witness for C6: a post with no media chain and no commentary. -/
theorem c6_normalized_fallbacks_witness :
    mediaDownloadUrl ⟨"p1", none, none, 0⟩ = none ∧
    (⟨"p1", none, none, 0⟩ : ProviderPost).commentary = none ∧
    ((formatPost 5 ⟨"p1", none, none, 0⟩).imageUrl = placeholderUrl 5 ∧
      placeholderUrl 5 ≠ "" ∧
      (formatPost 5 ⟨"p1", none, none, 0⟩).content = "" ∧
      ∀ seed2 p2, (formatPost seed2 p2).imageUrl ≠ "") :=
  ⟨rfl, rfl, c6_normalized_fallbacks 5 ⟨"p1", none, none, 0⟩ rfl rfl⟩

/-- C7: the first-revision normalizer returns honest zeros for
`impressions`, `comments`, `shares` and every reaction count, but the
third-revision normalizer (the `/v2/shares` flow the claim also cites)
fabricates randomized metrics — its `impressions` is at least 500, never
zero, for every post and every random draw, contradicting the honest-zero
requirement; the source itself labels these values dummy data. -/
theorem c7_metrics_divergence :
    (∀ seeds p, 500 ≤ (formatPostV3 seeds p).impressions ∧
        (formatPostV3 seeds p).impressions ≠ 0) ∧
    (∀ seed p, (formatPost seed p).impressions = 0 ∧
        (formatPost seed p).comments = 0 ∧
        (formatPost seed p).shares = 0 ∧
        (formatPost seed p).reactions = ⟨0, 0, 0, 0, 0⟩) := by
  constructor
  · intro seeds p
    simp only [formatPostV3]
    omega
  · intro seed p
    exact ⟨rfl, rfl, rfl, rfl⟩

/-- C8: with a non-empty code, CompleteAuthorization issues exactly one
token-exchange POST, whose parameters carry the grant type
`authorization_code`, the code, the same callback address ROUTE 1 builds,
and the client credentials; the request's axios data is `null` (no JSON
body), the revision content types are not `application/json`, and the
third revision declares `application/x-www-form-urlencoded`. -/
theorem c8_token_exchange_request (ct : String) (cfg : Config)
    (env : CallbackEnv) (tbl : Table) (code : Option String)
    (h : codeMissing code = false) :
    (completeAuthorization ct cfg env tbl code).exchangeCalls =
      [mkTokenRequest ct cfg (code.getD "")] ∧
    (mkTokenRequest ct cfg (code.getD "")).params =
      [("grant_type", "authorization_code"),
       ("code", code.getD ""),
       ("redirect_uri", beginAuthRedirectUri cfg),
       ("client_id", cfg.clientId),
       ("client_secret", cfg.clientSecret)] ∧
    (mkTokenRequest ct cfg (code.getD "")).jsonBody = none ∧
    (mkTokenRequest ct cfg (code.getD "")).url =
      "https://www.linkedin.com/oauth/v2/accessToken" ∧
    ctypeV1 ≠ "application/json" ∧
    ctypeV3 ≠ "application/json" ∧
    ctypeV3 = "application/x-www-form-urlencoded" := by
  refine ⟨?_, rfl, rfl, rfl, by decide, by decide, rfl⟩
  cases hex : env.exchange with
  | failure d => simp [completeAuthorization, h, hex]
  | success tok e =>
      cases hwr : env.write with
      | ok => simp [completeAuthorization, h, hex, hwr]
      | storeError m => simp [completeAuthorization, h, hex, hwr]

/-- Witness for C8: the code `abc123` under the concrete configuration. -/
theorem c8_token_exchange_request_witness :
    codeMissing (some "abc123") = false ∧
    ((completeAuthorization ctypeV1 cfgX envOkX [] (some "abc123")).exchangeCalls =
        [mkTokenRequest ctypeV1 cfgX ((some "abc123").getD "")] ∧
      (mkTokenRequest ctypeV1 cfgX ((some "abc123").getD "")).params =
        [("grant_type", "authorization_code"),
         ("code", (some "abc123").getD ""),
         ("redirect_uri", beginAuthRedirectUri cfgX),
         ("client_id", cfgX.clientId),
         ("client_secret", cfgX.clientSecret)] ∧
      (mkTokenRequest ctypeV1 cfgX ((some "abc123").getD "")).jsonBody = none ∧
      (mkTokenRequest ctypeV1 cfgX ((some "abc123").getD "")).url =
        "https://www.linkedin.com/oauth/v2/accessToken" ∧
      ctypeV1 ≠ "application/json" ∧
      ctypeV3 ≠ "application/json" ∧
      ctypeV3 = "application/x-www-form-urlencoded") :=
  ⟨by decide, c8_token_exchange_request ctypeV1 cfgX envOkX [] (some "abc123") (by decide)⟩

/-- Concrete environment where the store write throws. -/
def envStoreFailX : CallbackEnv := ⟨.success "tok9" 60, .storeError "down", 5⟩

/-- C9 as stated is refuted by the second revision of the callback: when
the store is unavailable because the pool was never created, the handler
answers `res.status(500).send('Server error: Database connection failed.')`
— a raw error page, not a redirect to the failure landing page. -/
theorem c9_raw_error_page_counterexample :
    (completeAuthorizationV2 ctypeV1 cfgX false envOkX [] (some "abc123")).response =
      .rawPage 500 "Server error: Database connection failed." ∧
    ((completeAuthorizationV2 ctypeV1 cfgX false envOkX [] (some "abc123")).response).isRedirect
      = false := by
  decide

/-- C9 amended: for every failure of the token exchange (network error,
non-2xx, malformed response) or of the store write, the response is the
redirect to the failure landing page with only the generic `error=true`
flag; any two failing executions produce the identical response, so the
redirect carries neither the access token nor the provider's error body.
(The second revision's never-created-pool guard instead answers a raw 500
page: see the counterexample.) -/
theorem c9_failure_redirect_generic (ct : String) (cfg : Config)
    (env env2 : CallbackEnv) (tbl tbl2 : Table) (code code2 : Option String)
    (h : codeMissing code = false)
    (hfail : (∃ d, env.exchange = .failure d) ∨ (∃ m, env.write = .storeError m)) :
    (completeAuthorization ct cfg env tbl code).response =
      .redirect (cfg.frontendUrl ++ "/settings?error=true") ∧
    (codeMissing code2 = false →
      ((∃ d, env2.exchange = .failure d) ∨ (∃ m, env2.write = .storeError m)) →
      (completeAuthorization ct cfg env2 tbl2 code2).response =
        (completeAuthorization ct cfg env tbl code).response) := by
  have key : ∀ (e : CallbackEnv) (t : Table) (c : Option String),
      codeMissing c = false →
      ((∃ d, e.exchange = .failure d) ∨ (∃ m, e.write = .storeError m)) →
      (completeAuthorization ct cfg e t c).response =
        .redirect (cfg.frontendUrl ++ "/settings?error=true") := by
    intro e t c hc hf
    rcases hf with ⟨d, hd⟩ | ⟨m, hm⟩
    · simp [completeAuthorization, hc, hd]
    · cases hex : e.exchange with
      | failure d => simp [completeAuthorization, hc, hex]
      | success tok ei => simp [completeAuthorization, hc, hex, hm]
  refine ⟨key env tbl code h hfail, ?_⟩
  intro h2 hfail2
  rw [key env2 tbl2 code2 h2 hfail2, key env tbl code h hfail]

/-- Witness for C9 amended: a failed exchange versus a failed store write,
under the concrete configuration. -/
theorem c9_failure_redirect_generic_witness :
    codeMissing (some "abc123") = false ∧
    (∃ d, envFailX.exchange = .failure d) ∧
    ((completeAuthorization ctypeV1 cfgX envFailX [] (some "abc123")).response =
        .redirect (cfgX.frontendUrl ++ "/settings?error=true") ∧
      (codeMissing (some "zzz") = false →
        ((∃ d, envStoreFailX.exchange = .failure d) ∨
          (∃ m, envStoreFailX.write = .storeError m)) →
        (completeAuthorization ctypeV1 cfgX envStoreFailX
            [(defaultUser, ⟨"t", 7⟩)] (some "zzz")).response =
          (completeAuthorization ctypeV1 cfgX envFailX [] (some "abc123")).response)) :=
  ⟨by decide, ⟨"boom", rfl⟩,
    c9_failure_redirect_generic ctypeV1 cfgX envFailX envStoreFailX []
      [(defaultUser, ⟨"t", 7⟩)] (some "abc123") (some "zzz") (by decide)
      (Or.inl ⟨"boom", rfl⟩)⟩

/-- C10: every store touch point keys on the same constant
`'default_user'`: a successful CompleteAuthorization upserts under that
key, and the very record it wrote is what the status lookup sees
(`isConnected` true) and what the posts lookup reads (the bearer token
used for the outbound calls is the token just stored). -/
theorem c10_same_key_roundtrip (ct : String) (cfg : Config)
    (env : CallbackEnv) (tbl : Table) (code : Option String)
    (tok : String) (expiresIn : Nat)
    (h : codeMissing code = false)
    (hex : env.exchange = .success tok expiresIn)
    (hwr : env.write = .ok) :
    lookup (completeAuthorization ct cfg env tbl code).table defaultUser =
      some ⟨tok, env.now + expiresIn⟩ ∧
    (apiStatus true (completeAuthorization ct cfg env tbl code).table).isConnected = true ∧
    ∀ penv seeds,
      (apiPosts (completeAuthorization ct cfg env tbl code).table penv seeds).tokenUsed =
        some tok := by
  have htbl : (completeAuthorization ct cfg env tbl code).table =
      upsert tbl defaultUser ⟨tok, env.now + expiresIn⟩ := by
    simp [completeAuthorization, h, hex, hwr]
  have hpos := countKey_upsert_pos tbl defaultUser ⟨tok, env.now + expiresIn⟩
  refine ⟨?_, ?_, ?_⟩
  · rw [htbl]
    exact lookup_upsert _ _ _
  · rw [htbl]
    simp [apiStatus, hpos]
  · intro penv seeds
    rw [htbl]
    unfold apiPosts
    rw [lookup_upsert]
    cases penv.profile with
    | httpError s b => rfl
    | network m => rfl
    | ok pid =>
        cases penv.listing with
        | httpError s b => rfl
        | network m => rfl
        | ok elements => rfl

/-- Witness for C10: the concrete successful exchange `envOkX` run from
the empty table. -/
theorem c10_same_key_roundtrip_witness :
    codeMissing (some "abc123") = false ∧
    envOkX.exchange = .success "tok2" 120 ∧
    envOkX.write = .ok ∧
    (lookup (completeAuthorization ctypeV1 cfgX envOkX [] (some "abc123")).table
        defaultUser = some ⟨"tok2", envOkX.now + 120⟩ ∧
      (apiStatus true
          (completeAuthorization ctypeV1 cfgX envOkX [] (some "abc123")).table).isConnected
        = true ∧
      ∀ penv seeds,
        (apiPosts (completeAuthorization ctypeV1 cfgX envOkX [] (some "abc123")).table
            penv seeds).tokenUsed = some "tok2") :=
  ⟨by decide, rfl, rfl,
    c10_same_key_roundtrip ctypeV1 cfgX envOkX [] (some "abc123") "tok2" 120
      (by decide) rfl rfl⟩

end LinkedinBackend
